import Mathlib

/- Shallow embedding of ai-cellfill-excel.

   Part 1 models `call_api` (src/utils/api.py, identical to the copy in
   src/main.py lines 221-355): request construction for the two protocols,
   success-path extraction from the JSON response body, and the three
   except-clauses that turn exceptions into failure strings.

   Python values reachable in that code are modelled by a small JSON type;
   operations that can raise in Python (`.get` on a non-dict, `len` on a
   non-sized value, subscripting, `.strip` on a non-string) live in an
   `Except PyExc` monad, and `call_api` itself is the try/except wrapper
   that converts every exception into a returned string. -/

inductive Json where
  | null : Json
  | str (s : String) : Json
  | num (n : Int) : Json
  | arr (elems : List Json) : Json
  | obj (fields : List (String × Json)) : Json

/-- Python `str.strip()` with no argument: surrounding whitespace removed,
written on the character list so that it evaluates by kernel reduction. -/
def pyTrimStr (s : String) : String :=
  String.mk (List.reverse (List.dropWhile Char.isWhitespace
    (List.reverse (List.dropWhile Char.isWhitespace s.data))))

def digitsVal (acc : Nat) : List Char → Option Nat
  | [] => some acc
  | c :: rest => if c.isDigit then digitsVal (acc * 10 + (c.toNat - 48)) rest else none

def digitsToNat : List Char → Option Nat
  | [] => none
  | l => digitsVal 0 l

/-- Python `int(string)`: surrounding whitespace ignored, optional sign,
decimal digits; `none` models the ValueError on any other shape (digit
group separators are not modelled). -/
def pyStrToInt (s : String) : Option Int :=
  match (pyTrimStr s).data with
  | [] => none
  | c :: rest =>
      if c = '-' then (digitsToNat rest).map (fun n => -(n : Int))
      else if c = '+' then (digitsToNat rest).map (fun n => (n : Int))
      else (digitsToNat (c :: rest)).map (fun n => (n : Int))

/-- The requests-level outcome of one HTTP POST: a timeout, a
`requests.exceptions.RequestException` (transport failure, or a non-2xx
status re-raised by `raise_for_status`), or a 2xx response whose body
parsed as JSON. -/
structure ErrResponse where
  statusCode : Int
  jsonDetail : Option String
  text : String
  deriving DecidableEq, Repr

structure ReqExcInfo where
  response : Option ErrResponse
  excText : String
  deriving DecidableEq, Repr

inductive PyExc where
  | timeoutExc : PyExc
  | requestExc (info : ReqExcInfo) : PyExc
  | otherExc (msg : String) : PyExc
  deriving DecidableEq, Repr

inductive HttpOutcome where
  | timeout : HttpOutcome
  | reqException (info : ReqExcInfo) : HttpOutcome
  | success (body : Json) : HttpOutcome

def jsonLookup : List (String × Json) → String → Option Json
  | [], _ => none
  | (k, v) :: rest, key => if k = key then some v else jsonLookup rest key

/-- Python `value.get(key)`: total on dicts (absent key gives None), raises
AttributeError on every other type. -/
def pyGet : Json → String → Except PyExc Json
  | Json.obj fs, k => Except.ok ((jsonLookup fs k).getD Json.null)
  | _, _ => Except.error (PyExc.otherExc "AttributeError")

/-- Python `value.get(key, default)`. -/
def pyGetD (j : Json) (k : String) (d : Json) : Except PyExc Json :=
  match j with
  | Json.obj fs => Except.ok ((jsonLookup fs k).getD d)
  | _ => Except.error (PyExc.otherExc "AttributeError")

/-- Python truthiness of a JSON value. -/
def pyTruthy : Json → Bool
  | Json.null => false
  | Json.str s => s ≠ ""
  | Json.num n => n ≠ 0
  | Json.arr xs => ¬ xs.isEmpty
  | Json.obj fs => ¬ fs.isEmpty

/-- Python `len(value)`: defined on strings, lists and dicts, TypeError
otherwise. -/
def pyLen : Json → Except PyExc Nat
  | Json.str s => Except.ok s.length
  | Json.arr xs => Except.ok xs.length
  | Json.obj fs => Except.ok fs.length
  | _ => Except.error (PyExc.otherExc "TypeError")

/-- Python `value[0]`. -/
def pyIndexZero : Json → Except PyExc Json
  | Json.arr (x :: _) => Except.ok x
  | Json.arr [] => Except.error (PyExc.otherExc "IndexError")
  | Json.str s =>
      if s = "" then Except.error (PyExc.otherExc "IndexError")
      else Except.ok (Json.str (String.mk (s.data.take 1)))
  | _ => Except.error (PyExc.otherExc "TypeError")

/-- Python `value.strip()`: strings only, AttributeError otherwise. -/
def pyStrip : Json → Except PyExc String
  | Json.str s => Except.ok (pyTrimStr s)
  | _ => Except.error (PyExc.otherExc "AttributeError")

/-- Rendering of a JSON value inside an f-string. Only the string case is
exercised by the properties below; container rendering is abbreviated. -/
def pyStrOf : Json → String
  | Json.null => "None"
  | Json.str s => s
  | Json.num n => toString n
  | Json.arr _ => "[...]"
  | Json.obj _ => "{...}"

/-- One configured backend, as produced by `read_config`. -/
structure ApiConfig where
  KEY : String
  ENDPOINT : String
  MODEL : String
  NAME : String
  TYPE : String
  ENABLED : Bool
  deriving DecidableEq, Repr

/-- Python truthiness of the `system_prompt` argument (a string or None). -/
def pyTruthyStr : Option String → Bool
  | none => false
  | some s => s ≠ ""

structure ChatMessage where
  role : String
  content : String
  deriving DecidableEq, Repr

structure OpenAIPayload where
  model : String
  messages : List ChatMessage
  deriving DecidableEq, Repr

/-- Request body built for TYPE "openai" (api.py lines 23-30): the system
message is prepended only when the system prompt is truthy. -/
def openaiPayload (model : String) (system_prompt : Option String)
    (user_prompt : String) : OpenAIPayload :=
  { model := model
    messages :=
      (if pyTruthyStr system_prompt then
        [{ role := "system", content := system_prompt.getD "" }]
      else []) ++ [{ role := "user", content := user_prompt }] }

structure GooglePayload where
  contentsUserText : String
  systemInstruction : Option String
  deriving DecidableEq, Repr

/-- Request body built for TYPE "google" (api.py lines 67-70): the
systemInstruction field is present only when the system prompt is truthy. -/
def googlePayload (system_prompt : Option String)
    (user_prompt : String) : GooglePayload :=
  { contentsUserText := user_prompt
    systemInstruction :=
      if pyTruthyStr system_prompt then some (system_prompt.getD "") else none }

inductive ApiRequest where
  | openaiReq (url : String) (authKey : String) (payload : OpenAIPayload) : ApiRequest
  | googleReq (url : String) (payload : GooglePayload) : ApiRequest
  deriving DecidableEq, Repr

/-- Performing the POST: the network is an oracle from the request to its
outcome; timeout and RequestException surface as exceptions exactly as the
two dedicated except-clauses expect. -/
def doRequest (net : ApiRequest → HttpOutcome) (req : ApiRequest) :
    Except PyExc Json :=
  match net req with
  | HttpOutcome.timeout => Except.error PyExc.timeoutExc
  | HttpOutcome.reqException info => Except.error (PyExc.requestExc info)
  | HttpOutcome.success body => Except.ok body

/-- Success-path extraction for TYPE "openai" (api.py lines 41-56). -/
def openaiExtract (api_name : String) (result : Json) : Except PyExc String := do
  let choices ← pyGet result "choices"
  if pyTruthy choices then
    let n ← pyLen choices
    if n > 0 then
      let c0 ← pyIndexZero choices
      let message ← pyGetD c0 "message" (Json.obj [])
      let content ← pyGet message "content"
      if pyTruthy content then
        pyStrip content
      else
        Except.ok ("Error (" ++ api_name ++ "): No content in response message.")
    else
      Except.ok ("Error (" ++ api_name ++ "): Unexpected API response format.")
  else
    Except.ok ("Error (" ++ api_name ++ "): Unexpected API response format.")

/-- The else-branch of the Google content check (api.py lines 96-102). -/
def googleNoContent (api_name : String) (candidate : Json) :
    Except PyExc String := do
  let fr ← pyGetD candidate "finishReason" (Json.str "UNKNOWN")
  Except.ok ("Error (" ++ api_name ++ "): No content/parts in response. Finish: "
    ++ pyStrOf fr)

/-- Success-path extraction for TYPE "google" (api.py lines 79-105). -/
def googleExtract (api_name : String) (result : Json) : Except PyExc String := do
  let candidates ← pyGet result "candidates"
  if pyTruthy candidates then
    let n ← pyLen candidates
    if n > 0 then
      let candidate ← pyIndexZero candidates
      let contentJ ← pyGet candidate "content"
      if pyTruthy contentJ then
        let parts ← pyGet contentJ "parts"
        if pyTruthy parts then
          let np ← pyLen parts
          if np > 0 then
            let p0 ← pyIndexZero parts
            let text ← pyGet p0 "text"
            if pyTruthy text then
              pyStrip text
            else
              Except.ok ("Error (" ++ api_name ++ "): No text in response part.")
          else googleNoContent api_name candidate
        else googleNoContent api_name candidate
      else googleNoContent api_name candidate
    else
      Except.ok ("Error (" ++ api_name ++ "): No candidates in API response.")
  else
    Except.ok ("Error (" ++ api_name ++ "): No candidates in API response.")

/-- Body of the try-block of `call_api`: protocol dispatch on TYPE, the
request, and the extraction; unsupported TYPE returns (not raises) its
failure string. -/
def callApiBody (api_config : ApiConfig) (system_prompt : Option String)
    (user_prompt : String) (net : ApiRequest → HttpOutcome) :
    Except PyExc String :=
  if api_config.TYPE = "openai" then do
    let body ← doRequest net (ApiRequest.openaiReq
      (api_config.ENDPOINT ++ "/chat/completions") api_config.KEY
      (openaiPayload api_config.MODEL system_prompt user_prompt))
    openaiExtract api_config.NAME body
  else if api_config.TYPE = "google" then do
    let body ← doRequest net (ApiRequest.googleReq
      (api_config.ENDPOINT ++ "/" ++ api_config.MODEL ++ ":generateContent?key="
        ++ api_config.KEY)
      (googlePayload system_prompt user_prompt))
    googleExtract api_config.NAME body
  else
    Except.ok ("Error: Unsupported API type '" ++ api_config.TYPE ++ "'")

/-- Message built by the RequestException clause (api.py lines 116-132). -/
def requestErrorMsg (api_name : String) (info : ReqExcInfo) : String :=
  let base := "Error (" ++ api_name ++ "): API request failed."
  match info.response with
  | some r =>
      match r.jsonDetail with
      | some d => base ++ " Status: " ++ toString r.statusCode ++ ". Detail: " ++ d
      | none => base ++ " Status: " ++ toString r.statusCode ++ ". Response: " ++ r.text
  | none => base ++ " Exception: " ++ info.excText

/-- The whole `call_api`: the try-block body plus the three except clauses.
Every exception becomes a returned string, so the function is total. -/
def call_api (api_config : ApiConfig) (system_prompt : Option String)
    (user_prompt : String) (net : ApiRequest → HttpOutcome) : String :=
  match callApiBody api_config system_prompt user_prompt net with
  | Except.ok s => s
  | Except.error PyExc.timeoutExc =>
      "Error (" ++ api_config.NAME ++ "): API request timed out."
  | Except.error (PyExc.requestExc info) => requestErrorMsg api_config.NAME info
  | Except.error (PyExc.otherExc e) =>
      "Error (" ++ api_config.NAME ++ "): Processing API response failed. " ++ e

/- Part 2 models the spreadsheet and the Row Processing Engine
   (src/main.py lines 358-599): cell values, the flag decision,
   the per-backend loop with its failure-detection print, the per-row
   save, the row-boundary exception handler, and the
   `read_and_process_excel` flag normalization. -/

inductive PyVal where
  | intV (i : Int) : PyVal
  | strV (s : String) : PyVal
  deriving DecidableEq, Repr

abbrev Cell := Option PyVal

/-- The worksheet: a fixed extent and a cell map. `openpyxl` cells read as
None when never written. -/
structure Sheet where
  maxRow : Nat
  maxCol : Nat
  cell : Nat → Nat → Cell

def setCell (s : Sheet) (r c : Nat) (v : PyVal) : Sheet :=
  { s with cell := fun r2 c2 => if r2 = r ∧ c2 = c then some v else s.cell r2 c2 }

/-- Python `int(value)` on a cell: `none` models the ValueError/TypeError
branch. -/
def pyInt : Cell → Option Int
  | none => none
  | some (PyVal.intV i) => some i
  | some (PyVal.strV s) => pyStrToInt s

/-- Python `str(value)`. -/
def pyStrRender : PyVal → String
  | PyVal.intV i => toString i
  | PyVal.strV s => s

/-- Python truthiness of a cell value. -/
def cellTruthy : Cell → Bool
  | none => false
  | some (PyVal.intV i) => i ≠ 0
  | some (PyVal.strV s) => s ≠ ""

/-- Embedding of Python `str.startswith` on character lists. -/
def strStartsWith (s p : String) : Bool :=
  p.data.isPrefixOf s.data

/-- The user prompt of a row (main.py lines 488-494): `str(value).strip()`
when the cell is truthy, then re-tested for truthiness by `if user_prompt:`;
`none` therefore covers both the empty cell and the whitespace-only
prompt, which take the same branch. -/
def promptOf (c : Cell) : Option String :=
  match c with
  | none => none
  | some v =>
      if cellTruthy (some v) then
        if pyTrimStr (pyStrRender v) = "" then none
        else some (pyTrimStr (pyStrRender v))
      else none

/-- Observable actions of the engine besides cell writes: one backend
invocation, the engine's failed-call log branch (main.py lines 527-530),
the per-row workbook save (line 553), and the final save (line 592). -/
inductive Event where
  | apiCall (row : Nat) (backend : String) : Event
  | failureDetected (row : Nat) (backend : String) : Event
  | saveRow (row : Nat) : Event
  | finalSave : Event
  deriving DecidableEq, Repr

/-- Outcome of one backend invocation as seen by the engine: the string
`call_api` returned, or an unclassified exception escaping to the row
boundary. -/
inductive CallResult where
  | ok (s : String) : CallResult
  | raise (e : String) : CallResult
  deriving DecidableEq, Repr

abbrev ColMap := List (String × Nat)

/-- Python `llm_col_map.get(name)`. -/
def colFind : ColMap → String → Option Nat
  | [], _ => none
  | (k, c) :: rest, n => if k = n then some c else colFind rest n

/-- Python `min(llm_col_map.values())`: `none` models the ValueError on an
empty dict. -/
def minCol (m : ColMap) : Option Nat :=
  (m.map Prod.snd).min?

/-- The name-to-column mapping built by `initialize_excel` (main.py lines
215-217): enabled configs keep their position in the full list, offset to
start at column 3. -/
def llm_col_map_of (llm_configs : List ApiConfig) : ColMap :=
  (llm_configs.enum.filter (fun p => p.2.ENABLED)).map (fun p => (p.2.NAME, p.1 + 3))

/-- The flag decision (main.py lines 467-485): `int(flag) = 0` processes,
`1` and any other numeric value skip, and the ValueError/TypeError branch
coerces the cell to 0 and processes. Returns the decision and the possibly
updated sheet. -/
def flagStep (flagCol r : Nat) (s : Sheet) : Bool × Sheet :=
  match pyInt (s.cell r flagCol) with
  | some i => (i = 0, s)
  | none => (true, setCell s r flagCol (PyVal.intV 0))

inductive LoopOut where
  | done (s : Sheet) (evs : List Event) (allCalled : Bool) : LoopOut
  | exc (s : Sheet) (evs : List Event) (e : String) : LoopOut

def LoopOut.isDone : LoopOut → Bool
  | LoopOut.done _ _ _ => true
  | LoopOut.exc _ _ _ => false

/-- The per-backend loop (main.py lines 501-537): disabled configs are
skipped, a missing column mapping clears `all_apis_called_for_row` and
continues, a returned string is written verbatim into the backend's column
(with the failed-call log branch when it is truthy and starts with
"Error:"), and an unclassified exception aborts the loop. -/
def runBackends (api : Nat → ApiConfig → CallResult) (colMap : ColMap) (r : Nat) :
    List ApiConfig → Sheet → List Event → Bool → LoopOut
  | [], s, evs, allCalled => LoopOut.done s evs allCalled
  | cfg :: rest, s, evs, allCalled =>
      if cfg.ENABLED = false then runBackends api colMap r rest s evs allCalled
      else
        match colFind colMap cfg.NAME with
        | none => runBackends api colMap r rest s evs false
        | some col =>
            match api r cfg with
            | CallResult.raise e => LoopOut.exc s (evs ++ [Event.apiCall r cfg.NAME]) e
            | CallResult.ok res =>
                runBackends api colMap r rest
                  (setCell s r col (PyVal.strV res))
                  (evs ++ [Event.apiCall r cfg.NAME] ++
                    (if res ≠ "" ∧ strStartsWith res "Error:" then
                      [Event.failureDetected r cfg.NAME]
                    else []))
                  allCalled

structure RowOut where
  sheet : Sheet
  events : List Event
  processedInc : Nat

/-- Processing of one row (main.py lines 458-584). The flag decision picks
the branch; a non-empty prompt runs the backend loop, sets the flag to 1
exactly when `all_apis_called_for_row` survived, and saves; an empty prompt
sets the flag to 1 with no save; an unclassified exception is caught at the
row boundary, which writes the error text into the lowest mapped column and
forces the flag to 1 (no save). -/
def processRow (llm_configs : List ApiConfig) (colMap : ColMap) (flagCol : Nat)
    (api : Nat → ApiConfig → CallResult) (r : Nat) (s : Sheet) : RowOut :=
  let step := flagStep flagCol r s
  let s1 := step.2
  if step.1 then
    match promptOf (s1.cell r 1) with
    | some _ =>
        match runBackends api colMap r llm_configs s1 [] true with
        | LoopOut.done s2 evs allCalled =>
            if allCalled then
              RowOut.mk (setCell s2 r flagCol (PyVal.intV 1))
                (evs ++ [Event.saveRow r]) 1
            else
              RowOut.mk s2 (evs ++ [Event.saveRow r]) 0
        | LoopOut.exc s2 evs e =>
            match minCol colMap with
            | some c =>
                let s3 := setCell s2 r c (PyVal.strV ("Error processing row: " ++ e))
                let s4 := if flagCol ≠ 0 then setCell s3 r flagCol (PyVal.intV 1) else s3
                RowOut.mk s4 evs 0
            | none => RowOut.mk s2 evs 0
    | none =>
        RowOut.mk (setCell s1 r flagCol (PyVal.intV 1)) [] 0
  else
    RowOut.mk s1 [] 0

structure RunOut where
  sheet : Sheet
  events : List Event
  processed : Nat

/-- The row loop (main.py line 457): rows processed in ascending order,
each starting from the sheet the previous row left behind. -/
def runRows (llm_configs : List ApiConfig) (colMap : ColMap) (flagCol : Nat)
    (api : Nat → ApiConfig → CallResult) : List Nat → Sheet → RunOut
  | [], s => RunOut.mk s [] 0
  | r :: rest, s =>
      let o := processRow llm_configs colMap flagCol api r s
      let o2 := runRows llm_configs colMap flagCol api rest o.sheet
      RunOut.mk o2.sheet (o.events ++ o2.events) (o.processedInc + o2.processed)

/-- The data-row indices of one run: `range(2, max_row + 1)`, computed once
at loop entry; row 1 (the reserved non-data header block) is never part of
it. -/
def engineRows (s : Sheet) : List Nat :=
  List.range' 2 (s.maxRow - 1)

/-- One whole engine pass (main.py lines 457-593): the row loop followed by
the unconditional final save. -/
def engineRun (llm_configs : List ApiConfig) (colMap : ColMap) (flagCol : Nat)
    (api : Nat → ApiConfig → CallResult) (s : Sheet) : RunOut :=
  let o := runRows llm_configs colMap flagCol api (engineRows s) s
  RunOut.mk o.sheet (o.events ++ [Event.finalSave]) o.processed

/-- Header scan of `find_column_index` (main.py lines 358-364): first
column of row 1 whose value equals the header string. -/
def findHeader (s : Sheet) (header : String) : List Nat → Option Nat
  | [] => none
  | c :: rest =>
      if s.cell 1 c = some (PyVal.strV header) then some c
      else findHeader s header rest

def find_column_index (s : Sheet) (header : String) : Option Nat :=
  findHeader s header (List.range' 1 s.maxCol)

def flagHeader : String := "是否生成 (0 是 1 否)"

def normGo (flagCol : Nat) : List Nat → Sheet → Sheet
  | [], s => s
  | r :: rest, s =>
      normGo flagCol rest
        (if s.cell r flagCol = none then setCell s r flagCol (PyVal.intV 0) else s)

/-- The flag normalization of `read_and_process_excel` (main.py lines
367-395): every empty flag cell of rows 2..max_row becomes 0; a missing
flag column leaves the document untouched. -/
def read_and_process_excel (s : Sheet) : Sheet :=
  match find_column_index s flagHeader with
  | some c => normGo c (List.range' 2 (s.maxRow - 1)) s
  | none => s

/- Helper lemmas about the embedding. -/

theorem setCell_maxRow (s : Sheet) (r c : Nat) (v : PyVal) :
    (setCell s r c v).maxRow = s.maxRow := rfl

theorem setCell_maxCol (s : Sheet) (r c : Nat) (v : PyVal) :
    (setCell s r c v).maxCol = s.maxCol := rfl

theorem setCell_self (s : Sheet) (r c : Nat) (v : PyVal) :
    (setCell s r c v).cell r c = some v := by
  simp [setCell]

theorem setCell_ne (s : Sheet) (r c : Nat) (v : PyVal) (r2 c2 : Nat)
    (h : ¬ (r2 = r ∧ c2 = c)) :
    (setCell s r c v).cell r2 c2 = s.cell r2 c2 := by
  simp only [setCell]
  rw [if_neg h]

theorem setCell_row_ne (s : Sheet) (r c : Nat) (v : PyVal) (r2 c2 : Nat)
    (h : r2 ≠ r) :
    (setCell s r c v).cell r2 c2 = s.cell r2 c2 := by
  exact setCell_ne s r c v r2 c2 (by intro hc; exact h hc.1)

def LoopOut.sheet : LoopOut → Sheet
  | LoopOut.done s _ _ => s
  | LoopOut.exc s _ _ => s

def LoopOut.events : LoopOut → List Event
  | LoopOut.done _ evs _ => evs
  | LoopOut.exc _ evs _ => evs

def eventRow : Event → Option Nat
  | Event.apiCall r _ => some r
  | Event.failureDetected r _ => some r
  | Event.saveRow r => some r
  | Event.finalSave => none

/-- Whether every enabled config has a column mapping; this is the value
`all_apis_called_for_row` holds after the loop when it started true. -/
def allMapped (colMap : ColMap) (cfgs : List ApiConfig) : Bool :=
  cfgs.all (fun cfg => !cfg.ENABLED || (colFind colMap cfg.NAME).isSome)

/-- Cells after the backend loop: unchanged, or a string written at row r. -/
theorem runBackends_cells (api : Nat → ApiConfig → CallResult) (colMap : ColMap)
    (r : Nat) (cfgs : List ApiConfig) :
    ∀ (s : Sheet) (evs : List Event) (b : Bool) (r0 c0 : Nat),
      (runBackends api colMap r cfgs s evs b).sheet.cell r0 c0 = s.cell r0 c0 ∨
      (r0 = r ∧ ∃ t, (runBackends api colMap r cfgs s evs b).sheet.cell r0 c0
        = some (PyVal.strV t)) := by
  induction cfgs with
  | nil => intro s evs b r0 c0; left; rfl
  | cons cfg rest ih =>
      intro s evs b r0 c0
      by_cases hen : cfg.ENABLED = false
      · simpa [runBackends, hen] using ih s evs b r0 c0
      · cases hcol : colFind colMap cfg.NAME with
        | none => simpa [runBackends, hen, hcol] using ih s evs false r0 c0
        | some col =>
          cases hapi : api r cfg with
          | ok res =>
              have h2 := ih (setCell s r col (PyVal.strV res))
                (evs ++ [Event.apiCall r cfg.NAME] ++
                  (if res ≠ "" ∧ strStartsWith res "Error:" then
                    [Event.failureDetected r cfg.NAME] else [])) b r0 c0
              rcases h2 with h2 | h2
              · by_cases hr : r0 = r ∧ c0 = col
                · right
                  refine ⟨hr.1, res, ?_⟩
                  simp only [runBackends, hen, hcol, hapi]
                  rw [if_neg (by simp [hen])]
                  rw [h2, hr.1, hr.2, setCell_self]
                · left
                  simp only [runBackends, hen, hcol, hapi]
                  rw [if_neg (by simp [hen])]
                  rw [h2, setCell_ne s r col (PyVal.strV res) r0 c0 hr]
              · right
                refine ⟨h2.1, h2.2.choose, ?_⟩
                have := h2.2.choose_spec
                simp only [runBackends, hen, hcol, hapi]
                rw [if_neg (by simp [hen])]
                exact this
          | raise e =>
              left
              simp only [runBackends, hen, hcol, hapi]
              rw [if_neg (by simp [hen])]
              rfl

theorem runBackends_cell_ne (api : Nat → ApiConfig → CallResult) (colMap : ColMap)
    (r : Nat) (cfgs : List ApiConfig) (s : Sheet) (evs : List Event) (b : Bool)
    (r0 c0 : Nat) (h : r0 ≠ r) :
    (runBackends api colMap r cfgs s evs b).sheet.cell r0 c0 = s.cell r0 c0 := by
  rcases runBackends_cells api colMap r cfgs s evs b r0 c0 with h2 | h2
  · exact h2
  · exact absurd h2.1 h

theorem runBackends_events (api : Nat → ApiConfig → CallResult) (colMap : ColMap)
    (r : Nat) (cfgs : List ApiConfig) :
    ∀ (s : Sheet) (evs : List Event) (b : Bool) (e : Event),
      e ∈ (runBackends api colMap r cfgs s evs b).events →
      e ∈ evs ∨ eventRow e = some r := by
  induction cfgs with
  | nil => intro s evs b e he; exact Or.inl he
  | cons cfg rest ih =>
      intro s evs b e he
      by_cases hen : cfg.ENABLED = false
      · simp only [runBackends, hen, if_pos rfl] at he
        exact ih s evs b e he
      · cases hcol : colFind colMap cfg.NAME with
        | none =>
            simp only [runBackends, hen, hcol] at he
            rw [if_neg (by simp [hen])] at he
            exact ih s evs false e he
        | some col =>
          cases hapi : api r cfg with
          | ok res =>
              simp only [runBackends, hen, hcol, hapi] at he
              rw [if_neg (by simp [hen])] at he
              rcases ih _ _ b e he with h2 | h2
              · rcases List.mem_append.mp h2 with h3 | h3
                · rcases List.mem_append.mp h3 with h4 | h4
                  · exact Or.inl h4
                  · right; rw [List.mem_singleton.mp h4]; rfl
                · by_cases hdet : res ≠ "" ∧ strStartsWith res "Error:"
                  · rw [if_pos hdet] at h3
                    right; rw [List.mem_singleton.mp h3]; rfl
                  · rw [if_neg hdet] at h3
                    exact absurd h3 (List.not_mem_nil e)
              · exact Or.inr h2
          | raise e2 =>
              simp only [runBackends, hen, hcol, hapi] at he
              rw [if_neg (by simp [hen])] at he
              simp only [LoopOut.events] at he
              rcases List.mem_append.mp he with h3 | h3
              · exact Or.inl h3
              · right; rw [List.mem_singleton.mp h3]; rfl

/-- When no enabled backend raises at row r, the loop runs to completion and
`all_apis_called_for_row` ends as: it started true and every enabled backend
had a column mapping. -/
theorem runBackends_no_raise (api : Nat → ApiConfig → CallResult) (colMap : ColMap)
    (r : Nat) (cfgs : List ApiConfig)
    (h : ∀ cfg ∈ cfgs, cfg.ENABLED = true → ∀ e, api r cfg ≠ CallResult.raise e) :
    ∀ (s : Sheet) (evs : List Event) (b : Bool), ∃ s2 evs2,
      runBackends api colMap r cfgs s evs b
        = LoopOut.done s2 evs2 (b && allMapped colMap cfgs) := by
  induction cfgs with
  | nil => intro s evs b; exact ⟨s, evs, by simp [runBackends, allMapped]⟩
  | cons cfg rest ih =>
      intro s evs b
      have hrest : ∀ cfg2 ∈ rest, cfg2.ENABLED = true → ∀ e, api r cfg2 ≠ CallResult.raise e :=
        fun cfg2 h2 => h cfg2 (List.mem_cons_of_mem cfg h2)
      by_cases hen : cfg.ENABLED = false
      · rcases ih hrest s evs b with ⟨s2, evs2, heq⟩
        refine ⟨s2, evs2, ?_⟩
        have hall : allMapped colMap (cfg :: rest) = allMapped colMap rest := by
          simp [allMapped, hen]
        simp [runBackends, hen, heq, hall]
      · have hen2 : cfg.ENABLED = true := by
          cases h2 : cfg.ENABLED with
          | true => rfl
          | false => exact absurd h2 hen
        cases hcol : colFind colMap cfg.NAME with
        | none =>
            rcases ih hrest s evs false with ⟨s2, evs2, heq⟩
            refine ⟨s2, evs2, ?_⟩
            simp only [runBackends, hcol]
            rw [if_neg (by simp [hen]), heq]
            have : allMapped colMap (cfg :: rest) = false := by
              simp [allMapped, hen2, hcol]
            rw [this, Bool.and_false, Bool.false_and]
        | some col =>
          cases hapi : api r cfg with
          | ok res =>
              rcases ih hrest (setCell s r col (PyVal.strV res))
                (evs ++ [Event.apiCall r cfg.NAME] ++
                  (if res ≠ "" ∧ strStartsWith res "Error:" then
                    [Event.failureDetected r cfg.NAME] else [])) b with ⟨s2, evs2, heq⟩
              refine ⟨s2, evs2, ?_⟩
              simp only [runBackends, hcol, hapi]
              rw [if_neg (by simp [hen]), heq]
              have : allMapped colMap (cfg :: rest) = allMapped colMap rest := by
                simp [allMapped, hen2, hcol]
              rw [this]
          | raise e =>
              exact absurd hapi (h cfg (List.mem_cons_self cfg rest) hen2 e)

theorem processRow_skip (cfgs : List ApiConfig) (cm : ColMap) (fc : Nat)
    (api : Nat → ApiConfig → CallResult) (r : Nat) (s : Sheet) (i : Int)
    (h : pyInt (s.cell r fc) = some i) (hi : i ≠ 0) :
    processRow cfgs cm fc api r s = RowOut.mk s [] 0 := by
  simp only [processRow, flagStep, h]
  rw [if_neg (by simp [hi])]

theorem processRow_cell_ne (cfgs : List ApiConfig) (cm : ColMap) (fc : Nat)
    (api : Nat → ApiConfig → CallResult) (r : Nat) (s : Sheet) (r0 c0 : Nat)
    (h : r0 ≠ r) :
    (processRow cfgs cm fc api r s).sheet.cell r0 c0 = s.cell r0 c0 := by
  have hstep : (flagStep fc r s).2.cell r0 c0 = s.cell r0 c0 := by
    cases hpi : pyInt (s.cell r fc) with
    | some i => simp [flagStep, hpi]
    | none => simp only [flagStep, hpi]; exact setCell_row_ne s r fc (PyVal.intV 0) r0 c0 h
  simp only [processRow]
  split
  · split
    · split
      · next s2 evs allCalled heq =>
          have h2 : s2.cell r0 c0 = s.cell r0 c0 := by
            have h3 := runBackends_cell_ne api cm r cfgs (flagStep fc r s).2 [] true r0 c0 h
            rw [heq] at h3
            exact h3.trans hstep
          split
          · exact (setCell_row_ne s2 r fc (PyVal.intV 1) r0 c0 h).trans h2
          · exact h2
      · next s2 evs e heq =>
          have h2 : s2.cell r0 c0 = s.cell r0 c0 := by
            have h3 := runBackends_cell_ne api cm r cfgs (flagStep fc r s).2 [] true r0 c0 h
            rw [heq] at h3
            exact h3.trans hstep
          split
          · next c hmc =>
              have hinner : (setCell s2 r c
                  (PyVal.strV ("Error processing row: " ++ e))).cell r0 c0 = s.cell r0 c0 :=
                (setCell_row_ne s2 r c _ r0 c0 h).trans h2
              split
              · exact (setCell_row_ne _ r fc (PyVal.intV 1) r0 c0 h).trans hinner
              · exact hinner
          · exact h2
    · exact (setCell_row_ne _ r fc (PyVal.intV 1) r0 c0 h).trans hstep
  · exact hstep

theorem processRow_events (cfgs : List ApiConfig) (cm : ColMap) (fc : Nat)
    (api : Nat → ApiConfig → CallResult) (r : Nat) (s : Sheet) :
    ∀ e ∈ (processRow cfgs cm fc api r s).events, eventRow e = some r := by
  intro e he
  simp only [processRow] at he
  split at he
  · split at he
    · split at he
      · next s2 evs allCalled heq =>
          split at he
          all_goals {
            rcases List.mem_append.mp he with h1 | h1
            · have h4 := runBackends_events api cm r cfgs (flagStep fc r s).2 [] true e
                (by rw [heq]; exact h1)
              rcases h4 with h4 | h4
              · exact absurd h4 (List.not_mem_nil e)
              · exact h4
            · rw [List.mem_singleton.mp h1]; rfl
          }
      · next s2 evs e2 heq =>
          have hevs : e ∈ evs := by
            split at he
            · next c hmc => exact he
            · exact he
          have h4 := runBackends_events api cm r cfgs (flagStep fc r s).2 [] true e
            (by rw [heq]; exact hevs)
          rcases h4 with h4 | h4
          · exact absurd h4 (List.not_mem_nil e)
          · exact h4
    · exact absurd he (List.not_mem_nil e)
  · exact absurd he (List.not_mem_nil e)

theorem runRows_cell_notmem (cfgs : List ApiConfig) (cm : ColMap) (fc : Nat)
    (api : Nat → ApiConfig → CallResult) :
    ∀ (rows : List Nat) (s : Sheet) (r0 c0 : Nat), (∀ rr ∈ rows, rr ≠ r0) →
      (runRows cfgs cm fc api rows s).sheet.cell r0 c0 = s.cell r0 c0 := by
  intro rows
  induction rows with
  | nil => intro s r0 c0 _; rfl
  | cons r rest ih =>
      intro s r0 c0 hne
      have h1 : (runRows cfgs cm fc api (r :: rest) s).sheet
          = (runRows cfgs cm fc api rest (processRow cfgs cm fc api r s).sheet).sheet := rfl
      rw [h1, ih _ r0 c0 (fun rr h2 => hne rr (List.mem_cons_of_mem r h2))]
      exact processRow_cell_ne cfgs cm fc api r s r0 c0
        (Ne.symm (hne r (List.mem_cons_self r rest)))

theorem runRows_events (cfgs : List ApiConfig) (cm : ColMap) (fc : Nat)
    (api : Nat → ApiConfig → CallResult) :
    ∀ (rows : List Nat) (s : Sheet) (e : Event),
      e ∈ (runRows cfgs cm fc api rows s).events →
      ∃ rr, rr ∈ rows ∧ eventRow e = some rr := by
  intro rows
  induction rows with
  | nil => intro s e he; exact absurd he (List.not_mem_nil e)
  | cons r rest ih =>
      intro s e he
      have h1 : (runRows cfgs cm fc api (r :: rest) s).events
          = (processRow cfgs cm fc api r s).events
            ++ (runRows cfgs cm fc api rest (processRow cfgs cm fc api r s).sheet).events := rfl
      rw [h1] at he
      rcases List.mem_append.mp he with h2 | h2
      · exact ⟨r, List.mem_cons_self r rest, processRow_events cfgs cm fc api r s e h2⟩
      · rcases ih _ e h2 with ⟨rr, h3, h4⟩
        exact ⟨rr, List.mem_cons_of_mem r h3, h4⟩

/-- Invariant behind the Done-skip: a row whose flag cell is exactly the
integer 1 is never touched by the loop and generates no event. -/
theorem runRows_flag1 (cfgs : List ApiConfig) (cm : ColMap) (fc : Nat)
    (api : Nat → ApiConfig → CallResult) :
    ∀ (rows : List Nat) (s : Sheet) (r0 : Nat),
      s.cell r0 fc = some (PyVal.intV 1) →
      (∀ c0, (runRows cfgs cm fc api rows s).sheet.cell r0 c0 = s.cell r0 c0) ∧
      (∀ e ∈ (runRows cfgs cm fc api rows s).events, eventRow e ≠ some r0) := by
  intro rows
  induction rows with
  | nil => intro s r0 _; exact ⟨fun c0 => rfl, fun e he => absurd he (List.not_mem_nil e)⟩
  | cons r rest ih =>
      intro s r0 hflag
      by_cases hr : r = r0
      · subst hr
        have hskip : processRow cfgs cm fc api r s = RowOut.mk s [] 0 :=
          processRow_skip cfgs cm fc api r s 1 (by rw [hflag]; rfl) one_ne_zero
        have h1 : runRows cfgs cm fc api (r :: rest) s
            = RunOut.mk (runRows cfgs cm fc api rest s).sheet
              ([] ++ (runRows cfgs cm fc api rest s).events)
              (0 + (runRows cfgs cm fc api rest s).processed) := by
          simp only [runRows, hskip]
        rcases ih s r hflag with ⟨hc, he⟩
        constructor
        · intro c0; rw [h1]; exact hc c0
        · intro e hmem
          rw [h1] at hmem
          exact he e (by simpa using hmem)
      · have h2 : (processRow cfgs cm fc api r s).sheet.cell r0 fc = some (PyVal.intV 1) := by
          rw [processRow_cell_ne cfgs cm fc api r s r0 fc (fun h3 => hr h3.symm)]
          exact hflag
        rcases ih (processRow cfgs cm fc api r s).sheet r0 h2 with ⟨hc, he⟩
        constructor
        · intro c0
          have h3 : (runRows cfgs cm fc api (r :: rest) s).sheet.cell r0 c0
              = (processRow cfgs cm fc api r s).sheet.cell r0 c0 := hc c0
          rw [h3]
          exact processRow_cell_ne cfgs cm fc api r s r0 c0 (fun h4 => hr h4.symm)
        · intro e hmem
          have h4 : (runRows cfgs cm fc api (r :: rest) s).events
              = (processRow cfgs cm fc api r s).events
                ++ (runRows cfgs cm fc api rest (processRow cfgs cm fc api r s).sheet).events := rfl
          rw [h4] at hmem
          rcases List.mem_append.mp hmem with h5 | h5
          · have h6 := processRow_events cfgs cm fc api r s e h5
            rw [h6]
            intro h7
            exact hr (Option.some_injective _ h7)
          · exact he e h5

theorem range'_lb : ∀ (n a r : Nat), r ∈ List.range' a n → a ≤ r := by
  intro n
  induction n with
  | zero => intro a r hr; exact absurd hr (List.not_mem_nil r)
  | succ k ih =>
      intro a r hr
      rw [List.range'_succ] at hr
      rcases List.mem_cons.mp hr with h1 | h1
      · exact Nat.le_of_eq h1.symm
      · exact Nat.le_of_succ_le (ih (a + 1) r h1)

/-- The backend loop never emits a save event; saves happen only at the row
boundary. -/
theorem runBackends_no_save (api : Nat → ApiConfig → CallResult) (cm : ColMap)
    (r : Nat) (cfgs : List ApiConfig) :
    ∀ (s : Sheet) (evs : List Event) (b : Bool) (r2 : Nat),
      Event.saveRow r2 ∉ evs →
      Event.saveRow r2 ∉ (runBackends api cm r cfgs s evs b).events := by
  induction cfgs with
  | nil => intro s evs b r2 h; exact h
  | cons cfg rest ih =>
      intro s evs b r2 h
      by_cases hen : cfg.ENABLED = false
      · simp only [runBackends, hen, if_pos rfl]
        exact ih s evs b r2 h
      · cases hcol : colFind cm cfg.NAME with
        | none =>
            simp only [runBackends, hcol]
            rw [if_neg (by simp [hen])]
            exact ih s evs false r2 h
        | some col =>
          cases hapi : api r cfg with
          | ok res =>
              simp only [runBackends, hcol, hapi]
              rw [if_neg (by simp [hen])]
              refine ih _ _ b r2 ?_
              intro hmem
              rcases List.mem_append.mp hmem with h1 | h1
              · rcases List.mem_append.mp h1 with h2 | h2
                · exact h h2
                · simp at h2
              · split at h1
                · simp at h1
                · simp at h1
          | raise e =>
              simp only [runBackends, hcol, hapi]
              rw [if_neg (by simp [hen])]
              simp only [LoopOut.events]
              intro hmem
              rcases List.mem_append.mp hmem with h1 | h1
              · exact h h1
              · simp at h1

theorem allMapped_iff (cm : ColMap) (cfgs : List ApiConfig) :
    allMapped cm cfgs = true ↔
      ∀ cfg ∈ cfgs, cfg.ENABLED = true → (colFind cm cfg.NAME).isSome = true := by
  constructor
  · intro h cfg hm hen
    have h2 := (List.all_eq_true.mp h) cfg hm
    rw [hen] at h2
    simpa using h2
  · intro h
    refine List.all_eq_true.mpr ?_
    intro cfg hm
    cases hen : cfg.ENABLED with
    | false => simp
    | true => simpa using h cfg hm hen

theorem strStartsWith_append_self (p s : String) :
    strStartsWith (p ++ s) p = true := by
  unfold strStartsWith
  rw [String.data_append, List.isPrefixOf_iff_prefix]
  exact List.prefix_append p.data s.data

/-- Every message of the form "Error (...": carries the prefix "Error". -/
theorem strStartsWith_errorParen (x : String) :
    strStartsWith ("Error (" ++ x) "Error" = true := by
  have h : ("Error (" : String) ++ x = "Error" ++ (" (" ++ x) := by
    rw [← String.append_assoc]
    rfl
  rw [h]
  exact strStartsWith_append_self "Error" (" (" ++ x)

/-- No message of the form "Error (...": matches the engine's "Error:"
detection prefix: the sixth character is a blank, not a colon. -/
theorem strStartsWith_errorParen_colon (x : String) :
    strStartsWith ("Error (" ++ x) "Error:" = false := by
  unfold strStartsWith
  rw [String.data_append]
  cases h : List.isPrefixOf "Error:".data ("Error (".data ++ x.data) with
  | false => rfl
  | true =>
      exfalso
      have h2 := List.isPrefixOf_iff_prefix.mp h
      have h3 := List.prefix_iff_eq_take.mp h2
      have h4 : List.take ("Error:".data.length) ("Error (".data ++ x.data)
          = List.take 6 "Error (".data := by
        have h5 : ("Error:".data.length) = 6 := by decide
        rw [h5, List.take_append_eq_append_take]
        norm_num
      rw [h4] at h3
      exact absurd h3 (by decide)

theorem normGo_maxRow (fc : Nat) :
    ∀ (rows : List Nat) (s : Sheet), (normGo fc rows s).maxRow = s.maxRow := by
  intro rows
  induction rows with
  | nil => intro s; rfl
  | cons r rest ih =>
      intro s
      simp only [normGo]
      rw [ih]
      split <;> rfl

theorem normGo_maxCol (fc : Nat) :
    ∀ (rows : List Nat) (s : Sheet), (normGo fc rows s).maxCol = s.maxCol := by
  intro rows
  induction rows with
  | nil => intro s; rfl
  | cons r rest ih =>
      intro s
      simp only [normGo]
      rw [ih]
      split <;> rfl

theorem normGo_cell_notmem (fc : Nat) :
    ∀ (rows : List Nat) (s : Sheet) (r0 c0 : Nat), (∀ rr ∈ rows, rr ≠ r0) →
      (normGo fc rows s).cell r0 c0 = s.cell r0 c0 := by
  intro rows
  induction rows with
  | nil => intro s r0 c0 _; rfl
  | cons r rest ih =>
      intro s r0 c0 hne
      simp only [normGo]
      rw [ih _ r0 c0 (fun rr h2 => hne rr (List.mem_cons_of_mem r h2))]
      split
      · exact setCell_row_ne s r fc (PyVal.intV 0) r0 c0
          (Ne.symm (hne r (List.mem_cons_self r rest)))
      · rfl

theorem normGo_keeps_some (fc : Nat) :
    ∀ (rows : List Nat) (s : Sheet) (r0 c0 : Nat) (v : PyVal),
      s.cell r0 c0 = some v → (normGo fc rows s).cell r0 c0 = some v := by
  intro rows
  induction rows with
  | nil => intro s r0 c0 v h; exact h
  | cons r rest ih =>
      intro s r0 c0 v h
      simp only [normGo]
      apply ih
      split
      · next hnone =>
          by_cases hrc : r0 = r ∧ c0 = fc
          · rw [hrc.1, hrc.2] at h
            rw [hnone] at h
            cases h
          · rw [setCell_ne s r fc (PyVal.intV 0) r0 c0 hrc]
            exact h
      · exact h

theorem normGo_fills (fc : Nat) :
    ∀ (rows : List Nat) (s : Sheet) (r0 : Nat), r0 ∈ rows →
      (normGo fc rows s).cell r0 fc ≠ none := by
  intro rows
  induction rows with
  | nil => intro s r0 h; exact absurd h (List.not_mem_nil r0)
  | cons r rest ih =>
      intro s r0 hmem
      rcases List.mem_cons.mp hmem with h1 | h1
      · subst h1
        simp only [normGo]
        cases h2 : s.cell r0 fc with
        | none =>
            rw [if_pos rfl]
            have h3 := normGo_keeps_some fc rest (setCell s r0 fc (PyVal.intV 0)) r0 fc
              (PyVal.intV 0) (setCell_self s r0 fc (PyVal.intV 0))
            rw [h3]
            exact Option.some_ne_none _
        | some v =>
            rw [if_neg (Option.some_ne_none v)]
            rw [normGo_keeps_some fc rest s r0 fc v h2]
            exact Option.some_ne_none _
      · intro h2
        simp only [normGo] at h2
        have h5 := ih (if s.cell r fc = none then setCell s r fc (PyVal.intV 0) else s) r0 h1
        exact h5 h2

theorem normGo_sets (fc : Nat) :
    ∀ (rows : List Nat) (s : Sheet) (r0 : Nat), r0 ∈ rows → s.cell r0 fc = none →
      (normGo fc rows s).cell r0 fc = some (PyVal.intV 0) := by
  intro rows
  induction rows with
  | nil => intro s r0 h; exact absurd h (List.not_mem_nil r0)
  | cons r rest ih =>
      intro s r0 hmem hnone
      by_cases h1 : r = r0
      · subst h1
        simp only [normGo]
        rw [if_pos hnone]
        exact normGo_keeps_some fc rest _ r fc (PyVal.intV 0) (setCell_self s r fc (PyVal.intV 0))
      · have hmem2 : r0 ∈ rest := by
          rcases List.mem_cons.mp hmem with h2 | h2
          · exact absurd h2.symm h1
          · exact h2
        simp only [normGo]
        split
        · refine ih _ r0 hmem2 ?_
          rw [setCell_row_ne s r fc (PyVal.intV 0) r0 fc (fun h3 => h1 h3.symm)]
          exact hnone
        · exact ih s r0 hmem2 hnone

/-- Second pass of the normalization over rows that are all already filled
is the identity, as a structural equality of sheets. -/
theorem normGo_id (fc : Nat) :
    ∀ (rows : List Nat) (s : Sheet), (∀ r ∈ rows, s.cell r fc ≠ none) →
      normGo fc rows s = s := by
  intro rows
  induction rows with
  | nil => intro s _; rfl
  | cons r rest ih =>
      intro s h
      simp only [normGo]
      rw [if_neg (h r (List.mem_cons_self r rest))]
      exact ih s (fun rr h2 => h rr (List.mem_cons_of_mem r h2))

theorem findHeader_congr (s2 s : Sheet) (header : String)
    (h : ∀ c0, s2.cell 1 c0 = s.cell 1 c0) :
    ∀ cols, findHeader s2 header cols = findHeader s header cols := by
  intro cols
  induction cols with
  | nil => rfl
  | cons c rest ih =>
      simp only [findHeader, h c, ih]

/- Concrete fixtures used to instantiate the theorems below. -/

def cfgGPT : ApiConfig :=
  { KEY := "k", ENDPOINT := "http://host", MODEL := "m", NAME := "GPT",
    TYPE := "openai", ENABLED := true }

def cfgs1 : List ApiConfig := [cfgGPT]

def colMap1 : ColMap := llm_col_map_of cfgs1

def apiOkText : Nat → ApiConfig → CallResult := fun _ _ => CallResult.ok "generated"

def apiFailText : Nat → ApiConfig → CallResult :=
  fun _ _ => CallResult.ok "Error (GPT): API request timed out."

def apiRaise : Nat → ApiConfig → CallResult := fun _ _ => CallResult.raise "boom"

def headerRow : Nat → Cell := fun c =>
  if c = 1 then some (PyVal.strV "用户提示词")
  else if c = 2 then some (PyVal.strV flagHeader)
  else if c = 3 then some (PyVal.strV "GPT")
  else none

/-- One data row ready for processing: prompt "hello", flag 0. -/
def sheetProc : Sheet :=
  { maxRow := 2, maxCol := 3,
    cell := fun r c =>
      if r = 1 then headerRow c
      else if r = 2 ∧ c = 1 then some (PyVal.strV "hello")
      else if r = 2 ∧ c = 2 then some (PyVal.intV 0)
      else none }

/-- One data row already marked Done(1). -/
def sheetDone : Sheet :=
  { maxRow := 2, maxCol := 3,
    cell := fun r c =>
      if r = 1 then headerRow c
      else if r = 2 ∧ c = 1 then some (PyVal.strV "hello")
      else if r = 2 ∧ c = 2 then some (PyVal.intV 1)
      else none }

/-- One data row with the out-of-range flag value 2. -/
def sheetFlag2 : Sheet :=
  { maxRow := 2, maxCol := 3,
    cell := fun r c =>
      if r = 1 then headerRow c
      else if r = 2 ∧ c = 1 then some (PyVal.strV "hello")
      else if r = 2 ∧ c = 2 then some (PyVal.intV 2)
      else none }

/-- One data row with the non-numeric flag value "abc". -/
def sheetNonNum : Sheet :=
  { maxRow := 2, maxCol := 3,
    cell := fun r c =>
      if r = 1 then headerRow c
      else if r = 2 ∧ c = 1 then some (PyVal.strV "hello")
      else if r = 2 ∧ c = 2 then some (PyVal.strV "abc")
      else none }

/-- One data row with an empty prompt cell and flag 0. -/
def sheetEmptyPrompt : Sheet :=
  { maxRow := 2, maxCol := 3,
    cell := fun r c =>
      if r = 1 then headerRow c
      else if r = 2 ∧ c = 2 then some (PyVal.intV 0)
      else none }

/-- Two processable data rows, for the row-isolation scenario. -/
def sheetTwoRows : Sheet :=
  { maxRow := 3, maxCol := 3,
    cell := fun r c =>
      if r = 1 then headerRow c
      else if (r = 2 ∨ r = 3) ∧ c = 1 then some (PyVal.strV "hello")
      else if (r = 2 ∨ r = 3) ∧ c = 2 then some (PyVal.intV 0)
      else none }

/-- Exception at row 2 only; later rows succeed. -/
def apiRaiseRow2 : Nat → ApiConfig → CallResult :=
  fun r _ => if r = 2 then CallResult.raise "boom" else CallResult.ok "generated"

/-- C2: for every row whose completion-flag cell holds exactly Done(1) at the
start of a run, the engine skips the row entirely: it invokes no backend for
that row and writes to none of that row's cells, so the row's outputs and
flag are unchanged by re-running the engine. -/
theorem C2_done_row_skipped_entirely (cfgs : List ApiConfig) (cm : ColMap)
    (fc : Nat) (api : Nat → ApiConfig → CallResult) (s : Sheet) (r : Nat)
    (hflag : s.cell r fc = some (PyVal.intV 1)) :
    (∀ c, (engineRun cfgs cm fc api s).sheet.cell r c = s.cell r c) ∧
    (∀ name, Event.apiCall r name ∉ (engineRun cfgs cm fc api s).events) ∧
    Event.saveRow r ∉ (engineRun cfgs cm fc api s).events := by
  rcases runRows_flag1 cfgs cm fc api (engineRows s) s r hflag with ⟨hc, he⟩
  have h1 : (engineRun cfgs cm fc api s).events
      = (runRows cfgs cm fc api (engineRows s) s).events ++ [Event.finalSave] := rfl
  refine ⟨fun c => hc c, fun name hmem => ?_, fun hmem => ?_⟩
  · rw [h1] at hmem
    rcases List.mem_append.mp hmem with h2 | h2
    · exact he _ h2 rfl
    · simp at h2
  · rw [h1] at hmem
    rcases List.mem_append.mp hmem with h2 | h2
    · exact he _ h2 rfl
    · simp at h2

theorem C2_witness :
    (engineRun cfgs1 colMap1 2 apiOkText sheetDone).sheet.cell 2 3 = sheetDone.cell 2 3 ∧
    (engineRun cfgs1 colMap1 2 apiOkText sheetDone).sheet.cell 2 2 = some (PyVal.intV 1) ∧
    Event.apiCall 2 "GPT" ∉ (engineRun cfgs1 colMap1 2 apiOkText sheetDone).events := by
  have h := C2_done_row_skipped_entirely cfgs1 colMap1 2 apiOkText sheetDone 2 (by decide)
  exact ⟨h.1 3, by rw [h.1 2]; decide, h.2.1 "GPT"⟩

def eventBeyondHeader (e : Event) : Bool :=
  match eventRow e with
  | none => true
  | some r => 2 ≤ r

/-- C6: the reserved leading non-data block (in this engine, exactly the
header row, row 1: the loop starts at row 2) is always skipped: no cell of
row 1 — its flag included — is ever written, and every row-tagged event of a
run (backend call, failed-call detection, per-row save) concerns a data row
beyond that block. -/
theorem C6_header_block_never_touched (cfgs : List ApiConfig) (cm : ColMap)
    (fc : Nat) (api : Nat → ApiConfig → CallResult) (s : Sheet) :
    (∀ c, (engineRun cfgs cm fc api s).sheet.cell 1 c = s.cell 1 c) ∧
    (engineRun cfgs cm fc api s).events.all eventBeyondHeader = true := by
  constructor
  · intro c
    have h1 : (engineRun cfgs cm fc api s).sheet
        = (runRows cfgs cm fc api (engineRows s) s).sheet := rfl
    rw [h1]
    apply runRows_cell_notmem
    intro rr hm
    have h2 := range'_lb _ 2 rr hm
    omega
  · refine List.all_eq_true.mpr ?_
    intro e he
    have h1 : (engineRun cfgs cm fc api s).events
        = (runRows cfgs cm fc api (engineRows s) s).events ++ [Event.finalSave] := rfl
    rw [h1] at he
    rcases List.mem_append.mp he with h2 | h2
    · rcases runRows_events cfgs cm fc api (engineRows s) s e h2 with ⟨rr, hm, hrow⟩
      have h3 := range'_lb _ 2 rr hm
      simp only [eventBeyondHeader, hrow]
      exact decide_eq_true h3
    · rw [List.mem_singleton.mp h2]
      rfl

/-- C3 counterexample: a data row whose flag cell holds the out-of-range
numeric value 2 is NOT coerced to Pending(0) and NOT processed — the engine
leaves the row completely untouched, contradicting the claim. -/
theorem C3_counterexample_flag2_skipped :
    (processRow cfgs1 colMap1 2 apiOkText 2 sheetFlag2).sheet.cell 2 2
      = some (PyVal.intV 2) ∧
    (processRow cfgs1 colMap1 2 apiOkText 2 sheetFlag2).sheet.cell 2 3 = none ∧
    (processRow cfgs1 colMap1 2 apiOkText 2 sheetFlag2).events = [] := by
  decide

/-- C3 amended: only a NON-NUMERIC flag value is coerced to Pending(0) and
processed (the row then behaves exactly as if its flag cell had held 0); a
numeric value other than 0 and 1 is skipped outright, with no coercion, no
write and no backend call. -/
theorem C3_amended_flag_coercion (cfgs : List ApiConfig) (cm : ColMap) (fc : Nat)
    (api : Nat → ApiConfig → CallResult) (r : Nat) (s : Sheet) :
    (pyInt (s.cell r fc) = none →
      (setCell s r fc (PyVal.intV 0)).cell r fc = some (PyVal.intV 0) ∧
      processRow cfgs cm fc api r s
        = processRow cfgs cm fc api r (setCell s r fc (PyVal.intV 0))) ∧
    (∀ k : Int, pyInt (s.cell r fc) = some k → k ≠ 0 → k ≠ 1 →
      processRow cfgs cm fc api r s = RowOut.mk s [] 0) := by
  constructor
  · intro hnone
    refine ⟨setCell_self s r fc (PyVal.intV 0), ?_⟩
    have h1 : flagStep fc r s = (true, setCell s r fc (PyVal.intV 0)) := by
      simp [flagStep, hnone]
    have h2 : flagStep fc r (setCell s r fc (PyVal.intV 0))
        = (true, setCell s r fc (PyVal.intV 0)) := by
      simp [flagStep, setCell_self, pyInt]
    simp only [processRow, h1, h2]
  · intro k hk hk0 _
    exact processRow_skip cfgs cm fc api r s k hk hk0

theorem C3_witness :
    (setCell sheetNonNum 2 2 (PyVal.intV 0)).cell 2 2 = some (PyVal.intV 0) ∧
    processRow cfgs1 colMap1 2 apiOkText 2 sheetNonNum
      = processRow cfgs1 colMap1 2 apiOkText 2 (setCell sheetNonNum 2 2 (PyVal.intV 0)) ∧
    processRow cfgs1 colMap1 2 apiOkText 2 sheetFlag2 = RowOut.mk sheetFlag2 [] 0 := by
  have h1 := (C3_amended_flag_coercion cfgs1 colMap1 2 apiOkText 2 sheetNonNum).1 (by decide)
  have h2 := (C3_amended_flag_coercion cfgs1 colMap1 2 apiOkText 2 sheetFlag2).2 2
    (by decide) (by decide) (by decide)
  exact ⟨h1.1, h1.2, h2⟩

/-- C4 counterexample: a row that completes through the empty-prompt branch
(flag set to Done(1)) triggers NO per-row save — the only save of the run is
the final one after the loop — contradicting the claim that the store is
persisted immediately after every completed row including empty-prompt
rows. -/
theorem C4_counterexample_empty_prompt_no_save :
    (engineRun cfgs1 colMap1 2 apiOkText sheetEmptyPrompt).sheet.cell 2 2
      = some (PyVal.intV 1) ∧
    (engineRun cfgs1 colMap1 2 apiOkText sheetEmptyPrompt).events
      = [Event.finalSave] := by
  decide

/-- C4 amended: the engine saves the workbook immediately after a row if and
only if that row entered processing (flag read as 0, or coerced from a
non-numeric value), had a non-empty prompt, and the backend loop completed
without an unclassified exception; such a save happens even when backends
returned failure strings or column mappings were missing, but skipped rows,
empty-prompt rows and exception-handled rows trigger no per-row save (their
writes reach storage only at a later row's save or at the final save). -/
theorem C4_amended_save_exactly_after_processed_rows (cfgs : List ApiConfig)
    (cm : ColMap) (fc : Nat) (api : Nat → ApiConfig → CallResult) (r : Nat)
    (s : Sheet) :
    Event.saveRow r ∈ (processRow cfgs cm fc api r s).events ↔
      ((flagStep fc r s).1 = true ∧
       promptOf ((flagStep fc r s).2.cell r 1) ≠ none ∧
       (runBackends api cm r cfgs (flagStep fc r s).2 [] true).isDone = true) := by
  simp only [processRow]
  split
  · next hb =>
      split
      · next p hpo =>
          split
          · next s2 evs allCalled heq =>
              apply iff_of_true
              · split
                · exact List.mem_append.mpr (Or.inr (List.mem_singleton.mpr rfl))
                · exact List.mem_append.mpr (Or.inr (List.mem_singleton.mpr rfl))
              · exact ⟨hb, by rw [hpo]; exact Option.some_ne_none p, by rw [heq]; rfl⟩
          · next s2 evs e heq =>
              apply iff_of_false
              · have hnos := runBackends_no_save api cm r cfgs (flagStep fc r s).2 [] true r
                  (List.not_mem_nil _)
                rw [heq] at hnos
                intro hmem
                apply hnos
                split at hmem
                · next c hmc => exact hmem
                · exact hmem
              · intro hconj
                rw [heq] at hconj
                exact absurd hconj.2.2 (by simp [LoopOut.isDone])
      · next hpo =>
          apply iff_of_false
          · simp
          · intro hconj
            exact hconj.2.1 hpo
  · next hb =>
      apply iff_of_false
      · simp
      · intro hconj
        exact hb hconj.1

def LoopOut.excMsg : LoopOut → Option String
  | LoopOut.done _ _ _ => none
  | LoopOut.exc _ _ e => some e

/-- C1: for a row read with flag 0 and a non-empty prompt, once every
enabled backend has been attempted without an unclassified exception, the
flag cell is set to Done(1) if and only if every enabled backend's name had
a column mapping — regardless of what strings (failures included) the calls
returned; when some mapping is missing the flag cell is left untouched. -/
theorem C1_flag_done_iff_all_mapped (cfgs : List ApiConfig) (cm : ColMap)
    (fc : Nat) (api : Nat → ApiConfig → CallResult) (r : Nat) (s : Sheet)
    (h0 : pyInt (s.cell r fc) = some 0)
    (hp : ∃ p, promptOf (s.cell r 1) = some p)
    (hnr : ∀ cfg ∈ cfgs, cfg.ENABLED = true → ∀ e, api r cfg ≠ CallResult.raise e) :
    (processRow cfgs cm fc api r s).sheet.cell r fc = some (PyVal.intV 1) ↔
      (∀ cfg ∈ cfgs, cfg.ENABLED = true → (colFind cm cfg.NAME).isSome = true) := by
  have hstep : flagStep fc r s = (true, s) := by simp [flagStep, h0]
  rcases hp with ⟨p, hp⟩
  rcases runBackends_no_raise api cm r cfgs hnr s [] true with ⟨s2, evs2, heq⟩
  simp only [processRow, hstep, hp, heq, Bool.true_and]
  by_cases ham : allMapped cm cfgs = true
  · rw [if_pos ham]
    apply iff_of_true
    · exact setCell_self s2 r fc (PyVal.intV 1)
    · exact (allMapped_iff cm cfgs).mp ham
  · rw [if_neg ham]
    apply iff_of_false
    · have hcells := runBackends_cells api cm r cfgs s [] true r fc
      rw [heq] at hcells
      intro h2
      have h2b : s2.cell r fc = some (PyVal.intV 1) := h2
      rcases hcells with h1 | h1
      · have h1b : s2.cell r fc = s.cell r fc := h1
        rw [h2b] at h1b
        rw [← h1b] at h0
        simp [pyInt] at h0
      · rcases h1.2 with ⟨t, h3⟩
        have h3b : s2.cell r fc = some (PyVal.strV t) := h3
        rw [h2b] at h3b
        cases h3b
    · intro h2
      exact ham ((allMapped_iff cm cfgs).mpr h2)

theorem C1_witness :
    (processRow cfgs1 colMap1 2 apiFailText 2 sheetProc).sheet.cell 2 2
      = some (PyVal.intV 1) := by
  have h := C1_flag_done_iff_all_mapped cfgs1 colMap1 2 apiFailText 2 sheetProc
    (by decide) ⟨"hello", by decide⟩
    (by intro cfg hm hen e h2; simp [apiFailText] at h2)
  exact h.mpr (by decide)

/-- C5: an unclassified exception during a row's backend loop is caught at
the row boundary: the error text is written into the lowest mapped output
column, the row's flag is forced to Done(1), no other row's cells are
touched by this row, and the loop goes on to process the remaining rows
from the state this row left behind. -/
theorem C5_row_exception_contained (cfgs : List ApiConfig) (cm : ColMap)
    (fc : Nat) (api : Nat → ApiConfig → CallResult) (r : Nat) (s : Sheet)
    (mc : Nat) (e : String)
    (hmc : minCol cm = some mc) (hfc : fc ≠ 0) (hfm : fc ≠ mc)
    (hb : (flagStep fc r s).1 = true)
    (hp : promptOf ((flagStep fc r s).2.cell r 1) ≠ none)
    (hexc : (runBackends api cm r cfgs (flagStep fc r s).2 [] true).excMsg = some e) :
    (processRow cfgs cm fc api r s).sheet.cell r fc = some (PyVal.intV 1) ∧
    (processRow cfgs cm fc api r s).sheet.cell r mc
      = some (PyVal.strV ("Error processing row: " ++ e)) ∧
    (∀ r0 c0, r0 ≠ r → (processRow cfgs cm fc api r s).sheet.cell r0 c0 = s.cell r0 c0) ∧
    (∀ rest, runRows cfgs cm fc api (r :: rest) s = RunOut.mk
        (runRows cfgs cm fc api rest (processRow cfgs cm fc api r s).sheet).sheet
        ((processRow cfgs cm fc api r s).events
          ++ (runRows cfgs cm fc api rest (processRow cfgs cm fc api r s).sheet).events)
        ((processRow cfgs cm fc api r s).processedInc
          + (runRows cfgs cm fc api rest (processRow cfgs cm fc api r s).sheet).processed)) := by
  rcases Option.ne_none_iff_exists.mp hp with ⟨p, hp2⟩
  cases hrb : runBackends api cm r cfgs (flagStep fc r s).2 [] true with
  | done s2 evs allCalled =>
      rw [hrb] at hexc
      cases hexc
  | exc s2 evs e2 =>
      rw [hrb] at hexc
      have he2 : e2 = e := by
        simpa [LoopOut.excMsg] using hexc
      rw [he2] at hrb
      have hsheet : (processRow cfgs cm fc api r s).sheet
          = setCell (setCell s2 r mc (PyVal.strV ("Error processing row: " ++ e)))
              r fc (PyVal.intV 1) := by
        simp only [processRow]
        rw [if_pos hb]
        rw [← hp2]
        simp only [hrb, hmc]
        rw [if_pos hfc]
      refine ⟨?_, ?_, ?_, fun rest => rfl⟩
      · rw [hsheet]
        exact setCell_self _ r fc (PyVal.intV 1)
      · rw [hsheet]
        rw [setCell_ne _ r fc (PyVal.intV 1) r mc (fun h2 => hfm h2.2.symm)]
        exact setCell_self s2 r mc _
      · intro r0 c0 h2
        exact processRow_cell_ne cfgs cm fc api r s r0 c0 h2

theorem C5_witness :
    (processRow cfgs1 colMap1 2 apiRaiseRow2 2 sheetTwoRows).sheet.cell 2 2
      = some (PyVal.intV 1) ∧
    (processRow cfgs1 colMap1 2 apiRaiseRow2 2 sheetTwoRows).sheet.cell 2 3
      = some (PyVal.strV "Error processing row: boom") ∧
    (processRow cfgs1 colMap1 2 apiRaiseRow2 2 sheetTwoRows).sheet.cell 3 1
      = sheetTwoRows.cell 3 1 := by
  have h := C5_row_exception_contained cfgs1 colMap1 2 apiRaiseRow2 2 sheetTwoRows 3 "boom"
    (by decide) (by decide) (by decide) (by decide) (by decide) (by decide)
  exact ⟨h.1, h.2.1, h.2.2.1 3 1 (by decide)⟩

/-- One data row whose flag cell is empty (normalization applies). -/
def sheetNoFlag : Sheet :=
  { maxRow := 2, maxCol := 3,
    cell := fun r c =>
      if r = 1 then headerRow c
      else if r = 2 ∧ c = 1 then some (PyVal.strV "hello")
      else none }

/-- C9: running the pending-flag normalization twice produces, as a
structural equality of sheets, the same document as running it once; the
first run sets every empty flag cell of the data rows to 0 and leaves every
non-empty cell as it was. -/
theorem C9_normalization_idempotent (s : Sheet) :
    read_and_process_excel (read_and_process_excel s) = read_and_process_excel s ∧
    (∀ col, find_column_index s flagHeader = some col →
      ∀ r ∈ List.range' 2 (s.maxRow - 1),
        (s.cell r col = none →
          (read_and_process_excel s).cell r col = some (PyVal.intV 0)) ∧
        (∀ v, s.cell r col = some v →
          (read_and_process_excel s).cell r col = some v)) := by
  constructor
  · cases hf : find_column_index s flagHeader with
    | none =>
        have h1 : read_and_process_excel s = s := by
          simp [read_and_process_excel, hf]
        rw [h1, h1]
    | some col =>
        have hs2 : read_and_process_excel s
            = normGo col (List.range' 2 (s.maxRow - 1)) s := by
          simp [read_and_process_excel, hf]
        have hrow1 : ∀ c0, (read_and_process_excel s).cell 1 c0 = s.cell 1 c0 := by
          intro c0
          rw [hs2]
          exact normGo_cell_notmem col _ s 1 c0
            (fun rr hm => by have h2 := range'_lb _ 2 rr hm; omega)
        have hmaxCol : (read_and_process_excel s).maxCol = s.maxCol := by
          rw [hs2]; exact normGo_maxCol col _ s
        have hmaxRow : (read_and_process_excel s).maxRow = s.maxRow := by
          rw [hs2]; exact normGo_maxRow col _ s
        have hfind : find_column_index (read_and_process_excel s) flagHeader = some col := by
          unfold find_column_index at hf ⊢
          rw [hmaxCol, findHeader_congr (read_and_process_excel s) s flagHeader hrow1]
          exact hf
        have hfill : ∀ r ∈ List.range' 2 (s.maxRow - 1),
            (read_and_process_excel s).cell r col ≠ none := by
          intro r hm
          rw [hs2]
          exact normGo_fills col _ s r hm
        have houter : read_and_process_excel (read_and_process_excel s)
            = normGo col (List.range' 2 ((read_and_process_excel s).maxRow - 1))
                (read_and_process_excel s) := by
          generalize hgen : read_and_process_excel s = t at hfind
          unfold read_and_process_excel
          rw [hfind]
        rw [houter, hmaxRow]
        exact normGo_id col _ (read_and_process_excel s) hfill
  · intro col hf r hm
    have hs2 : read_and_process_excel s
        = normGo col (List.range' 2 (s.maxRow - 1)) s := by
      simp [read_and_process_excel, hf]
    constructor
    · intro hnone
      rw [hs2]
      exact normGo_sets col _ s r hm hnone
    · intro v hv
      rw [hs2]
      exact normGo_keeps_some col _ s r col v hv

theorem C9_witness :
    read_and_process_excel (read_and_process_excel sheetNoFlag)
      = read_and_process_excel sheetNoFlag ∧
    (read_and_process_excel sheetNoFlag).cell 2 2 = some (PyVal.intV 0) := by
  have h := C9_normalization_idempotent sheetNoFlag
  have h2 := h.2 2 (by decide) 2 (by decide)
  exact ⟨h.1, h2.1 (by decide)⟩

/-- C10: call_api treats an empty-string system prompt exactly like an
absent one — both are falsy, so neither protocol's payload carries a system
message / systemInstruction, and the whole call behaves identically for
every network oracle. -/
theorem C10_empty_system_prompt_like_none (cfg : ApiConfig) (user : String)
    (net : ApiRequest → HttpOutcome) :
    openaiPayload cfg.MODEL (some "") user = openaiPayload cfg.MODEL none user ∧
    googlePayload (some "") user = googlePayload none user ∧
    call_api cfg (some "") user net = call_api cfg none user net := by
  have h1 : ∀ model, openaiPayload model (some "") user = openaiPayload model none user := by
    intro model
    simp [openaiPayload, pyTruthyStr]
  have h2 : googlePayload (some "") user = googlePayload none user := by
    simp [googlePayload, pyTruthyStr]
  refine ⟨h1 cfg.MODEL, h2, ?_⟩
  unfold call_api callApiBody
  rw [h1 cfg.MODEL, h2]

theorem errorParen_chain (name rest : String) :
    strStartsWith ("Error (" ++ name ++ rest) "Error" = true := by
  rw [String.append_assoc]
  exact strStartsWith_errorParen (name ++ rest)

theorem errorParen_chain_colon (name rest : String) :
    strStartsWith ("Error (" ++ name ++ rest) "Error:" = false := by
  rw [String.append_assoc]
  exact strStartsWith_errorParen_colon (name ++ rest)

theorem unsupported_msg_colon (t : String) :
    strStartsWith ("Error: Unsupported API type '" ++ t ++ "'") "Error:" = true := by
  have h : ("Error: Unsupported API type '" : String) ++ t ++ "'"
      = "Error:" ++ (" Unsupported API type '" ++ t ++ "'") := by
    rw [String.append_assoc, ← String.append_assoc]
    rfl
  rw [h]
  exact strStartsWith_append_self "Error:" _

theorem unsupported_msg_error (t : String) :
    strStartsWith ("Error: Unsupported API type '" ++ t ++ "'") "Error" = true := by
  have h : ("Error: Unsupported API type '" : String) ++ t ++ "'"
      = "Error" ++ (": Unsupported API type '" ++ t ++ "'") := by
    rw [String.append_assoc, ← String.append_assoc]
    rfl
  rw [h]
  exact strStartsWith_append_self "Error" _

theorem requestErrorMsg_prefix (name : String) (info : ReqExcInfo) :
    strStartsWith (requestErrorMsg name info) "Error" = true := by
  unfold requestErrorMsg
  cases hr : info.response with
  | none =>
      simp only [String.append_assoc]
      exact strStartsWith_errorParen _
  | some r =>
      cases hj : r.jsonDetail with
      | none =>
          simp only [hj, String.append_assoc]
          exact strStartsWith_errorParen _
      | some d =>
          simp only [hj, String.append_assoc]
          exact strStartsWith_errorParen _

/-- C7: call_api is total and classifies every listed scenario into a
returned failure string rather than an exception — a timeout, a transport
error or non-2xx response (RequestException), a well-formed response missing
the expected text field, and an unsupported protocol type; moreover any
exception raised inside the try-block is converted by the except-clauses into
a returned string carrying the "Error" prefix. -/
theorem C7_call_api_never_raises (cfg : ApiConfig) (sys : Option String)
    (user : String) :
    (∀ (net : ApiRequest → HttpOutcome) (exc : PyExc),
      callApiBody cfg sys user net = Except.error exc →
      strStartsWith (call_api cfg sys user net) "Error" = true) ∧
    (cfg.TYPE = "openai" ∨ cfg.TYPE = "google" →
      call_api cfg sys user (fun _ => HttpOutcome.timeout)
        = "Error (" ++ cfg.NAME ++ "): API request timed out.") ∧
    (∀ info : ReqExcInfo, cfg.TYPE = "openai" ∨ cfg.TYPE = "google" →
      call_api cfg sys user (fun _ => HttpOutcome.reqException info)
        = requestErrorMsg cfg.NAME info ∧
      strStartsWith (requestErrorMsg cfg.NAME info) "Error" = true) ∧
    (cfg.TYPE = "openai" →
      call_api cfg sys user
        (fun _ => HttpOutcome.success (Json.obj [("choices", Json.arr [Json.obj []])]))
        = "Error (" ++ cfg.NAME ++ "): No content in response message.") ∧
    (cfg.TYPE = "google" →
      call_api cfg sys user
        (fun _ => HttpOutcome.success (Json.obj [("candidates", Json.arr [Json.obj []])]))
        = "Error (" ++ cfg.NAME ++ "): No content/parts in response. Finish: UNKNOWN") ∧
    (∀ net : ApiRequest → HttpOutcome, cfg.TYPE ≠ "openai" → cfg.TYPE ≠ "google" →
      call_api cfg sys user net
        = "Error: Unsupported API type '" ++ cfg.TYPE ++ "'") := by
  refine ⟨?_, ?_, ?_, ?_, ?_, ?_⟩
  · intro net exc herr
    unfold call_api
    rw [herr]
    cases exc with
    | timeoutExc => exact errorParen_chain cfg.NAME _
    | requestExc info => exact requestErrorMsg_prefix cfg.NAME info
    | otherExc e =>
        show strStartsWith
          ("Error (" ++ cfg.NAME ++ "): Processing API response failed. " ++ e)
          "Error" = true
        rw [String.append_assoc]
        exact errorParen_chain cfg.NAME ("): Processing API response failed. " ++ e)
  · rintro (hT | hT) <;>
      simp [call_api, callApiBody, doRequest, hT, Bind.bind, Except.bind]
  · intro info hOr
    refine ⟨?_, requestErrorMsg_prefix cfg.NAME info⟩
    rcases hOr with hT | hT <;>
      simp [call_api, callApiBody, doRequest, hT, Bind.bind, Except.bind]
  · intro hT
    simp [call_api, callApiBody, doRequest, hT, openaiExtract, pyGet, pyGetD,
      pyTruthy, pyLen, pyIndexZero, jsonLookup, pyStrip, Bind.bind, Except.bind]
  · intro hT
    simp only [call_api, callApiBody, doRequest, hT]
    simp [googleExtract, googleNoContent, pyGet, pyGetD, pyTruthy, pyLen,
      pyIndexZero, jsonLookup, pyStrip, pyStrOf, Bind.bind, Except.bind]
    rw [String.append_assoc, String.append_assoc]
    rfl
  · intro net h1 h2
    simp [call_api, callApiBody, h1, h2]

def cfgGoogle : ApiConfig :=
  { KEY := "k", ENDPOINT := "http://host", MODEL := "m", NAME := "GOO",
    TYPE := "google", ENABLED := true }

def cfgOther : ApiConfig :=
  { KEY := "k", ENDPOINT := "http://host", MODEL := "m", NAME := "OTH",
    TYPE := "other", ENABLED := true }

def info500 : ReqExcInfo :=
  { response := some { statusCode := 500, jsonDetail := none, text := "boom" },
    excText := "" }

theorem C7_witness :
    call_api cfgGPT none "hi" (fun _ => HttpOutcome.timeout)
      = "Error (GPT): API request timed out." ∧
    call_api cfgGPT none "hi" (fun _ => HttpOutcome.reqException info500)
      = requestErrorMsg "GPT" info500 ∧
    call_api cfgGPT none "hi"
      (fun _ => HttpOutcome.success (Json.obj [("choices", Json.arr [Json.obj []])]))
      = "Error (GPT): No content in response message." ∧
    call_api cfgGoogle none "hi"
      (fun _ => HttpOutcome.success (Json.obj [("candidates", Json.arr [Json.obj []])]))
      = "Error (GOO): No content/parts in response. Finish: UNKNOWN" ∧
    call_api cfgOther none "hi" (fun _ => HttpOutcome.timeout)
      = "Error: Unsupported API type 'other'" := by
  have h1 := C7_call_api_never_raises cfgGPT none "hi"
  have h2 := C7_call_api_never_raises cfgGoogle none "hi"
  have h3 := C7_call_api_never_raises cfgOther none "hi"
  refine ⟨h1.2.1 (Or.inl rfl), ?_, h1.2.2.2.1 rfl, h2.2.2.2.2.1 rfl,
    h3.2.2.2.2.2 _ (by decide) (by decide)⟩
  exact (h1.2.2.1 info500 (Or.inl rfl)).1

/-- C8 counterexample: the timeout failure that call_api produces is
"Error (GPT): API request timed out.", which does NOT carry the "Error:"
prefix the engine's detection branch tests for; when the engine writes this
failure string it therefore emits no failure-detection event — the claim
that the engine recognizes call_api's failure strings by their fixed prefix
is false for this string. -/
theorem C8_counterexample_detection_misses_failure :
    call_api cfgGPT none "hi" (fun _ => HttpOutcome.timeout)
      = "Error (GPT): API request timed out." ∧
    strStartsWith "Error (GPT): API request timed out." "Error:" = false ∧
    (processRow cfgs1 colMap1 2 apiFailText 2 sheetProc).sheet.cell 2 3
      = some (PyVal.strV "Error (GPT): API request timed out.") ∧
    (processRow cfgs1 colMap1 2 apiFailText 2 sheetProc).events
      = [Event.apiCall 2 "GPT", Event.saveRow 2] := by
  decide

/-- C8 amended: every failure outcome of call_api begins with "Error", and
the engine writes each backend result verbatim into the backend's column
and finishes the row (flag Done) without crashing; but the engine's
failed-call detection branch triggers exactly on non-empty results carrying
the longer prefix "Error:", which matches the unsupported-protocol failure
"Error: ..." and not the "Error (name): ..." failures of the except
clauses. -/
theorem C8_amended_prefix_and_detection :
    (∀ (cfg : ApiConfig) (sys : Option String) (user : String),
      strStartsWith (call_api cfg sys user (fun _ => HttpOutcome.timeout))
        "Error" = true) ∧
    (∀ (cfg : ApiConfig) (sys : Option String) (user : String),
      cfg.TYPE = "openai" ∨ cfg.TYPE = "google" →
      strStartsWith (call_api cfg sys user (fun _ => HttpOutcome.timeout))
        "Error:" = false) ∧
    (∀ (cfg : ApiConfig) (sys : Option String) (user : String)
        (net : ApiRequest → HttpOutcome),
      cfg.TYPE ≠ "openai" → cfg.TYPE ≠ "google" →
      strStartsWith (call_api cfg sys user net) "Error:" = true) ∧
    (∀ (cfg : ApiConfig) (cm : ColMap) (fc : Nat)
        (api : Nat → ApiConfig → CallResult) (r : Nat) (s : Sheet)
        (col : Nat) (res : String),
      cfg.ENABLED = true → colFind cm cfg.NAME = some col →
      api r cfg = CallResult.ok res → fc ≠ col →
      (flagStep fc r s).1 = true →
      promptOf ((flagStep fc r s).2.cell r 1) ≠ none →
      (processRow [cfg] cm fc api r s).sheet.cell r col = some (PyVal.strV res) ∧
      (processRow [cfg] cm fc api r s).sheet.cell r fc = some (PyVal.intV 1) ∧
      (Event.failureDetected r cfg.NAME ∈ (processRow [cfg] cm fc api r s).events ↔
        res ≠ "" ∧ strStartsWith res "Error:" = true)) := by
  refine ⟨?_, ?_, ?_, ?_⟩
  · intro cfg sys user
    by_cases h1 : cfg.TYPE = "openai"
    · have heq : call_api cfg sys user (fun _ => HttpOutcome.timeout)
          = "Error (" ++ cfg.NAME ++ "): API request timed out." := by
        simp [call_api, callApiBody, doRequest, h1, Bind.bind, Except.bind]
      rw [heq]
      exact errorParen_chain cfg.NAME _
    · by_cases h2 : cfg.TYPE = "google"
      · have heq : call_api cfg sys user (fun _ => HttpOutcome.timeout)
            = "Error (" ++ cfg.NAME ++ "): API request timed out." := by
          simp [call_api, callApiBody, doRequest, h2, Bind.bind, Except.bind]
        rw [heq]
        exact errorParen_chain cfg.NAME _
      · have heq : call_api cfg sys user (fun _ => HttpOutcome.timeout)
            = "Error: Unsupported API type '" ++ cfg.TYPE ++ "'" := by
          simp [call_api, callApiBody, h1, h2]
        rw [heq]
        exact unsupported_msg_error cfg.TYPE
  · intro cfg sys user hOr
    have heq : call_api cfg sys user (fun _ => HttpOutcome.timeout)
        = "Error (" ++ cfg.NAME ++ "): API request timed out." := by
      rcases hOr with h1 | h1 <;>
        simp [call_api, callApiBody, doRequest, h1, Bind.bind, Except.bind]
    rw [heq]
    exact errorParen_chain_colon cfg.NAME _
  · intro cfg sys user net h1 h2
    have heq : call_api cfg sys user net
        = "Error: Unsupported API type '" ++ cfg.TYPE ++ "'" := by
      simp [call_api, callApiBody, h1, h2]
    rw [heq]
    exact unsupported_msg_colon cfg.TYPE
  · intro cfg cm fc api r s col res hen hcol hapi hneq hb hp
    rcases Option.ne_none_iff_exists.mp hp with ⟨p, hp2⟩
    have hrb : runBackends api cm r [cfg] (flagStep fc r s).2 [] true
        = LoopOut.done (setCell (flagStep fc r s).2 r col (PyVal.strV res))
          ([Event.apiCall r cfg.NAME] ++
            (if res ≠ "" ∧ strStartsWith res "Error:" = true then
              [Event.failureDetected r cfg.NAME] else []))
          true := by
      simp only [runBackends, hcol, hapi]
      rw [if_neg (by simp [hen])]
      rfl
    have hout : processRow [cfg] cm fc api r s
        = RowOut.mk
            (setCell (setCell (flagStep fc r s).2 r col (PyVal.strV res))
              r fc (PyVal.intV 1))
            (([Event.apiCall r cfg.NAME] ++
              (if res ≠ "" ∧ strStartsWith res "Error:" = true then
                [Event.failureDetected r cfg.NAME] else [])) ++ [Event.saveRow r])
            1 := by
      simp only [processRow]
      rw [if_pos hb, ← hp2]
      simp only [hrb]
      rfl
    refine ⟨?_, ?_, ?_⟩
    · rw [hout]
      show (setCell (setCell (flagStep fc r s).2 r col (PyVal.strV res))
        r fc (PyVal.intV 1)).cell r col = some (PyVal.strV res)
      rw [setCell_ne _ r fc (PyVal.intV 1) r col (fun h3 => hneq h3.2.symm)]
      exact setCell_self _ r col (PyVal.strV res)
    · rw [hout]
      exact setCell_self _ r fc (PyVal.intV 1)
    · rw [hout]
      by_cases hdet : res ≠ "" ∧ strStartsWith res "Error:" = true
      · rw [if_pos hdet]
        apply iff_of_true
        · simp
        · exact hdet
      · rw [if_neg hdet]
        apply iff_of_false
        · simp
        · exact hdet

theorem C8_witness :
    strStartsWith (call_api cfgGPT none "hi" (fun _ => HttpOutcome.timeout))
      "Error" = true ∧
    strStartsWith (call_api cfgGPT none "hi" (fun _ => HttpOutcome.timeout))
      "Error:" = false ∧
    strStartsWith (call_api cfgOther none "hi" (fun _ => HttpOutcome.timeout))
      "Error:" = true ∧
    (processRow [cfgGPT] colMap1 2 apiFailText 2 sheetProc).sheet.cell 2 3
      = some (PyVal.strV "Error (GPT): API request timed out.") ∧
    Event.failureDetected 2 "GPT"
      ∉ (processRow [cfgGPT] colMap1 2 apiFailText 2 sheetProc).events := by
  have h := C8_amended_prefix_and_detection
  have h4 := h.2.2.2 cfgGPT colMap1 2 apiFailText 2 sheetProc 3
    "Error (GPT): API request timed out." (by decide) (by decide) (by decide)
    (by decide) (by decide) (by decide)
  refine ⟨h.1 cfgGPT none "hi", h.2.1 cfgGPT none "hi" (Or.inl rfl),
    h.2.2.1 cfgOther none "hi" (fun _ => HttpOutcome.timeout) (by decide) (by decide),
    h4.1, ?_⟩
  intro hmem
  exact absurd (h4.2.2.mp hmem) (by decide)
